import Mathlib

/-!
# Verification of the currency-converter update pipeline

Shallow embedding of the `parserd` orchestrator package and the
`httpserver` serving layer of mrumyantsev/currency-converter, together
with proofs about the embedded operations.

Bytes are modelled as `Nat` values (no arithmetic is performed on them,
only equality tests). A Go slice value `[]byte` is modelled as
`Option (List Nat)`: `none` is the nil slice, `some []` the non-nil
empty slice — the two are distinguishable in Go by `data == nil`,
which is exactly the test `replaceCommasWithDots` performs.
-/

namespace CurrencyConverter

/-! ## Feed Normalizer: `replaceCommasWithDots` (parserd, lines 205–225)

```go
func replaceCommasWithDots(data []byte) error {
    const (
        START_DATA_INDEX int  = 100
        CHAR_COMMA       byte = ','
        CHAR_DOT         byte = '.'
    )
    if data == nil {
        return errors.New("data is empty")
    }
    lengthOfData := len(data)
    for i := START_DATA_INDEX; i < lengthOfData; i++ {
        if data[i] == CHAR_COMMA {
            data[i] = CHAR_DOT
        }
    }
    return nil
}
```
-/

def START_DATA_INDEX : Nat := 100

def CHAR_COMMA : Nat := 44

def CHAR_DOT : Nat := 46

/-- The in-place loop `for i := start; i < len(data); i++`: the first
`start` bytes are skipped, every comma byte from index `start` onward is
replaced by a dot byte, every other byte is left unchanged. -/
def replaceLoop : Nat → List Nat → List Nat
  | _, [] => []
  | 0, b :: rest => (if b = CHAR_COMMA then CHAR_DOT else b) :: replaceLoop 0 rest
  | n + 1, b :: rest => b :: replaceLoop n rest

/-- `replaceCommasWithDots`: fails iff the slice is nil (`data == nil`);
otherwise returns the buffer as the in-place loop leaves it. -/
def replaceCommasWithDots (data : Option (List Nat)) : Except String (List Nat) :=
  match data with
  | none => Except.error "data is empty"
  | some d => Except.ok (replaceLoop START_DATA_INDEX d)

/-- The caller's buffer after the call returns: a nil slice stays nil
(the callee cannot reseat it), a non-nil slice holds the loop's result. -/
def afterRepair (data : Option (List Nat)) : Option (List Nat) :=
  match data with
  | none => none
  | some d => some (replaceLoop START_DATA_INDEX d)

theorem replaceLoop_length (n : Nat) (d : List Nat) :
    (replaceLoop n d).length = d.length := by
  induction d generalizing n with
  | nil => cases n <;> rfl
  | cons b rest ih =>
    cases n with
    | zero => simpa [replaceLoop] using ih 0
    | succ m => simpa [replaceLoop] using ih m

theorem replaceLoop_get? (n : Nat) (d : List Nat) (i : Nat) :
    (replaceLoop n d).get? i =
      if i < n then d.get? i
      else (d.get? i).map (fun b => if b = CHAR_COMMA then CHAR_DOT else b) := by
  induction d generalizing n i with
  | nil => cases n <;> cases i <;> simp [replaceLoop]
  | cons b rest ih =>
    cases n with
    | zero =>
      cases i with
      | zero => simp [replaceLoop]
      | succ j => simpa [replaceLoop] using ih 0 j
    | succ m =>
      cases i with
      | zero => simp [replaceLoop]
      | succ j =>
        have := ih m j
        simp only [replaceLoop, List.get?]
        rw [this]
        by_cases h : j < m <;> simp [h, Nat.succ_lt_succ_iff]

theorem replaceLoop_of_length_le (n : Nat) (d : List Nat) (h : d.length ≤ n) :
    replaceLoop n d = d := by
  induction d generalizing n with
  | nil => cases n <;> rfl
  | cons b rest ih =>
    cases n with
    | zero => simp at h
    | succ m =>
      simp only [List.length_cons, Nat.succ_le_succ_iff] at h
      simp [replaceLoop, ih m h]

theorem replaceLoop_idem (n : Nat) (d : List Nat) :
    replaceLoop n (replaceLoop n d) = replaceLoop n d := by
  induction d generalizing n with
  | nil => cases n <;> rfl
  | cons b rest ih =>
    cases n with
    | zero =>
      by_cases h : b = 44 <;>
        simp [replaceLoop, CHAR_COMMA, CHAR_DOT, h, ih 0]
    | succ m => simp [replaceLoop, ih m]

end CurrencyConverter

namespace CurrencyConverter

/-- C4: after `Repair`, every byte at an index below the fixed offset 100
is unchanged, every comma byte at or above 100 becomes a dot, and every
other byte at or above 100 is unchanged. -/
theorem repair_boundary (d : List Nat) :
    ∃ out, replaceCommasWithDots (some d) = Except.ok out ∧
      out.length = d.length ∧
      ∀ i : Nat,
        (i < START_DATA_INDEX → out.get? i = d.get? i) ∧
        (START_DATA_INDEX ≤ i →
          out.get? i =
            (d.get? i).map (fun b => if b = CHAR_COMMA then CHAR_DOT else b)) := by
  refine ⟨replaceLoop START_DATA_INDEX d, rfl, replaceLoop_length _ _, fun i => ⟨?_, ?_⟩⟩
  · intro hi
    rw [replaceLoop_get?]
    simp [hi]
  · intro hi
    rw [replaceLoop_get?]
    simp [Nat.not_lt_of_le hi]

/-- A 120-byte buffer with a comma at index 50 (header side) and at
index 110 (data side), the example of §8. -/
def exampleBuffer : List Nat :=
  List.replicate 50 65 ++ [CHAR_COMMA] ++ List.replicate 59 65 ++
    [CHAR_COMMA] ++ List.replicate 9 65

/-- C4 witness: on the 120-byte example buffer, the comma at index 50
survives `Repair` and the comma at index 110 becomes a dot. -/
theorem repair_boundary_witness :
    ∃ out, replaceCommasWithDots (some exampleBuffer) = Except.ok out ∧
      out.get? 50 = some CHAR_COMMA ∧ out.get? 110 = some CHAR_DOT := by
  obtain ⟨out, hok, hlen, hprop⟩ := repair_boundary exampleBuffer
  refine ⟨out, hok, ?_, ?_⟩
  · have h := (hprop 50).1 (by decide)
    rw [h]; decide
  · have h := (hprop 110).2 (by decide)
    rw [h]; decide

/-- C6 counterexample: the claim says `Repair` fails exactly when the
buffer is nil or empty, but on the non-nil empty buffer the code's
`data == nil` test is false, so `Repair` succeeds instead of failing. -/
theorem repair_empty_succeeds_counterexample :
    ¬ ∃ e, replaceCommasWithDots (some ([] : List Nat)) = Except.error e := by
  rintro ⟨e, h⟩
  simp [replaceCommasWithDots] at h

/-- C6 (amended): `Repair` fails — with the `DataError` message
"data is empty" — exactly when the buffer is nil; every non-nil buffer,
including the empty one, succeeds. -/
theorem repair_fails_iff_nil (d : Option (List Nat)) :
    (∃ e, replaceCommasWithDots d = Except.error e) ↔ d = none := by
  cases d with
  | none => exact ⟨fun _ => rfl, fun _ => ⟨"data is empty", rfl⟩⟩
  | some l =>
    simp [replaceCommasWithDots]

/-- C7: on a non-nil buffer strictly shorter than the fixed offset 100,
`Repair` succeeds and leaves the buffer unchanged (the scan loop never
runs, so no index is touched). -/
theorem repair_short_buffer_noop (d : List Nat) (h : d.length < START_DATA_INDEX) :
    replaceCommasWithDots (some d) = Except.ok d := by
  simp [replaceCommasWithDots, replaceLoop_of_length_le _ _ (Nat.le_of_lt h)]

/-- C7 witness: a one-byte buffer holding a comma is below the offset,
and `Repair` returns it unchanged. -/
theorem repair_short_buffer_noop_witness :
    [CHAR_COMMA].length < START_DATA_INDEX ∧
      replaceCommasWithDots (some [CHAR_COMMA]) = Except.ok [CHAR_COMMA] :=
  ⟨by decide, repair_short_buffer_noop [CHAR_COMMA] (by decide)⟩

/-- C9: `Repair` is idempotent: a second application to the buffer the
first application leaves behind changes no byte and returns the same
result (the same success value, or the same error on a nil buffer). -/
theorem repair_idempotent (d : Option (List Nat)) :
    replaceCommasWithDots (afterRepair d) = replaceCommasWithDots d ∧
      afterRepair (afterRepair d) = afterRepair d := by
  cases d with
  | none => exact ⟨rfl, rfl⟩
  | some l =>
    simp [replaceCommasWithDots, afterRepair, replaceLoop_idem]

/-! ## Record model

Modelled from the spec: the `models` package is not among the sources;
§3 gives CurrencyRecord (numeric code, character code, multiplier, name,
value) and UpdateTimestamp (storage-assigned identifier plus a textual
date-time), matching the field accesses in `printData` and
`getCurrencies`. -/

structure Currency where
  numCode : String
  charCode : String
  multiplier : Nat
  name : String
  currencyValue : String
deriving DecidableEq

structure CurrencyStorage where
  currencies : List Currency
deriving DecidableEq

structure UpdateDatetime where
  id : Nat
  datetime : String
deriving DecidableEq

/-! ## Read Cache

Modelled from the spec: the `mem-storage` package is not among the
sources; §4.5 gives a concurrency-safe holder of the current snapshot.
The orchestrator calls two separate setters, `SetUpdateDatetime` and
`SetCurrencyStorage`, so the cache is modelled as two independently
swappable fields; each setter is one atomic state change. Go pointer
fields are `Option`s: the cache can hold a nil datetime or nil storage. -/

structure MemStorage where
  updateDatetime : Option UpdateDatetime
  currencyStorage : Option CurrencyStorage
deriving DecidableEq

def setUpdateDatetime (m : MemStorage) (dt : Option UpdateDatetime) : MemStorage :=
  { m with updateDatetime := dt }

def setCurrencyStorage (m : MemStorage) (cs : Option CurrencyStorage) : MemStorage :=
  { m with currencyStorage := cs }

def getCurrencyStorage (m : MemStorage) : Option CurrencyStorage :=
  m.currencyStorage

/-- `utils.DecorateError` (collaborator, not among the sources):
wraps an error with operation context, per §7. -/
def decorateError (msg e : String) : String :=
  msg ++ ": " ++ e

/-- Append an error log entry when the preceding call returned an error
(`if err != nil { fastlog.Error(msg, err) }`). -/
def logErr (logs : List String) (msg : String) : Option String → List String
  | none => logs
  | some e => logs ++ [decorateError msg e]

/-! ## Source Fetcher: `getParsedDataFromSource` (parserd, lines 166–203)

The collaborators it invokes (`fsOps.GetCurrencyData`,
`httpClient.GetCurrencyData`, `xmlParser.Parse`) are outside the core;
one cycle's worth of their behaviour is an environment. A collaborator
returning `([]byte, error)` is modelled as `Except`: on error Go's
convention returns no data; on success the slice may still be nil,
hence the `Option`. -/

structure FetchEnv where
  isReadCurrencyDataFromFile : Bool
  fileData : Except String (Option (List Nat))
  webData : Except String (Option (List Nat))
  parse : List Nat → Except String CurrencyStorage

/-- Which of the two retrieval collaborators the fetch invoked. -/
structure FetchCalls where
  fileCalled : Bool
  webCalled : Bool
deriving DecidableEq

/-- Lines 190–202: normalize the fetched bytes in place, then parse. -/
def normalizeAndParse (env : FetchEnv) (currencyData : Option (List Nat)) :
    Except String CurrencyStorage :=
  match replaceCommasWithDots currencyData with
  | Except.error e => Except.error (decorateError "cannot replace commas in data" e)
  | Except.ok repaired =>
    match env.parse repaired with
    | Except.error e => Except.error (decorateError "cannot parse data" e)
    | Except.ok currencyStorage => Except.ok currencyStorage

/-- `getParsedDataFromSource`: the configuration flag selects the
local-file reader or the network client, then the result is normalized
and parsed. Returns which collaborator was invoked alongside the
result. -/
def getParsedDataFromSource (env : FetchEnv) :
    FetchCalls × Except String CurrencyStorage :=
  if env.isReadCurrencyDataFromFile then
    match env.fileData with
    | Except.error e =>
      (⟨true, false⟩, Except.error (decorateError "cannot get currencies from file" e))
    | Except.ok currencyData => (⟨true, false⟩, normalizeAndParse env currencyData)
  else
    match env.webData with
    | Except.error e =>
      (⟨false, true⟩, Except.error (decorateError "cannot get curencies from web" e))
    | Except.ok currencyData => (⟨false, true⟩, normalizeAndParse env currencyData)

/-! ## Update Orchestrator: `updateCurrencyDataInStorages` (parserd, lines 101–164)

The durable-storage and time-check collaborators are outside the core;
one cycle's worth of their behaviour is a `CycleEnv`. Each Go call
`(value, err)` returning a pointer is modelled by an `Option` value and
an `Option String` error held independently (Go convention: on error the
pointer is nil). The orchestrator inspects `err` only to log; it then
uses the returned value regardless, so a nil `*models.UpdateDatetime`
dereferenced at `latestUpdateDatetime.Id` (line 149 or 154) is a runtime
panic, modelled as the `panic` outcome. The deferred `Disconnect` runs
in every outcome, panic unwinding included. -/

structure CycleEnv where
  connectErr : Option String
  disconnectErr : Option String
  latestDatetimeFromDb : Option UpdateDatetime
  latestDatetimeErr : Option String
  isNeedUpdate : Bool
  isNeedUpdateErr : Option String
  fetch : FetchEnv
  insertedDatetime : Option UpdateDatetime
  insertDatetimeErr : Option String
  insertCurrenciesErr : Option String
  latestCurrenciesFromDb : Option CurrencyStorage
  latestCurrenciesErr : Option String

/-- Which durable insert calls the cycle issued. -/
structure DurableCalls where
  insertUpdateDatetimeCalled : Bool
  insertCurrenciesCalled : Bool
deriving DecidableEq

/-- One cycle either runs to completion with a final cache state, or
panics on a nil-pointer dereference before reaching the cache. -/
inductive CycleOutcome where
  | ok (mem : MemStorage) (calls : DurableCalls) (logs : List String)
  | panic (calls : DurableCalls) (logs : List String)

def CycleOutcome.memAfter : CycleOutcome → Option MemStorage
  | CycleOutcome.ok mem _ _ => some mem
  | CycleOutcome.panic _ _ => none

def CycleOutcome.isPanic : CycleOutcome → Bool
  | CycleOutcome.ok _ _ _ => false
  | CycleOutcome.panic _ _ => true

def CycleOutcome.durableCalls : CycleOutcome → DurableCalls
  | CycleOutcome.ok _ calls _ => calls
  | CycleOutcome.panic calls _ => calls

/-- One update cycle, taking the collaborator behaviour and the cache
state before the cycle; error logs are collected in call order, with
the deferred disconnect log last. -/
def updateCurrencyDataInStorages (env : CycleEnv) (mem : MemStorage) : CycleOutcome :=
  let logs := logErr [] "cannot connect to db to do data update" env.connectErr
  let latestUpdateDatetime := env.latestDatetimeFromDb
  let logs := logErr logs "cannot get current update datetime" env.latestDatetimeErr
  let isNeedUpdate := env.isNeedUpdate
  let logs := logErr logs "cannot check is need update for db or not" env.isNeedUpdateErr
  let deferDisconnect := fun logs =>
    logErr logs "cannot disconnect from db to do data update" env.disconnectErr
  if isNeedUpdate then
    let fetched := (getParsedDataFromSource env.fetch).2
    let latestCurrencyStorage : Option CurrencyStorage :=
      match fetched with
      | Except.ok cs => some cs
      | Except.error _ => none
    let logs :=
      match fetched with
      | Except.ok _ => logs
      | Except.error e => logs ++ [decorateError "cannot get parsed data from source" e]
    let latestUpdateDatetime := env.insertedDatetime
    let logs := logErr logs "cannot insert datetime into db" env.insertDatetimeErr
    match latestUpdateDatetime with
    | none =>
      CycleOutcome.panic ⟨true, false⟩ (deferDisconnect logs)
    | some dt =>
      let logs := logErr logs "cannot insert currencies into db" env.insertCurrenciesErr
      let mem := setCurrencyStorage (setUpdateDatetime mem (some dt)) latestCurrencyStorage
      CycleOutcome.ok mem ⟨true, true⟩ (deferDisconnect logs)
  else
    match latestUpdateDatetime with
    | none =>
      CycleOutcome.panic ⟨false, false⟩ (deferDisconnect logs)
    | some dt =>
      let latestCurrencyStorage := env.latestCurrenciesFromDb
      let logs := logErr logs "cannot get currencies from db" env.latestCurrenciesErr
      let mem := setCurrencyStorage (setUpdateDatetime mem (some dt)) latestCurrencyStorage
      CycleOutcome.ok mem ⟨false, false⟩ (deferDisconnect logs)

/-! ## Publish interleaving (parserd, lines 160–161)

The cycle ends with two separate setter calls on the Read Cache. A
concurrent reader's `Get` returns the cache state after `k` of those
calls have completed: `k = 0` before the publish, `k = 1` between the
two setters, `k ≥ 2` after it. Each setter itself is one atomic state
change (§4.5's concurrency-safe cache). -/

def publishObservation (old : MemStorage) (dt : Option UpdateDatetime)
    (cs : Option CurrencyStorage) : Nat → MemStorage
  | 0 => old
  | 1 => setUpdateDatetime old dt
  | _ + 2 => setCurrencyStorage (setUpdateDatetime old dt) cs

/-! ## Serving layer: `/currencies.json` (http-server.go, lines 34–38 and 62–76)

`json.Marshal` and the body write are collaborator effects, modelled as
an environment. The response writer is a state: which header and status
have been written, and the body chunks flushed so far. -/

structure ResponseState where
  contentType : Option String
  status : Option Nat
  body : List (List Nat)
deriving DecidableEq

def initialResponse : ResponseState := ⟨none, none, []⟩

structure ServerEnv where
  marshal : List Currency → Except String (List Nat)
  writeErr : Option String

/-- The handler either returns (with or without an error) or panics —
`currencyStorage.Currencies` dereferences a nil cache entry. -/
inductive HandlerOutcome where
  | done (err : Option String)
  | panic
deriving DecidableEq

/-- `getCurrencies` (lines 62–76): read the cache, marshal the records,
write the body; each failure is returned as a decorated error. -/
def getCurrencies (env : ServerEnv) (mem : MemStorage) (w : ResponseState) :
    ResponseState × HandlerOutcome :=
  match getCurrencyStorage mem with
  | none => (w, HandlerOutcome.panic)
  | some currencyStorage =>
    match env.marshal currencyStorage.currencies with
    | Except.error e =>
      (w, HandlerOutcome.done (some (decorateError "cannot marshall curencies to json" e)))
    | Except.ok processedData =>
      match env.writeErr with
      | some e =>
        (w, HandlerOutcome.done (some (decorateError "cannot write data to http reponse" e)))
      | none => ({ w with body := w.body ++ [processedData] }, HandlerOutcome.done none)

/-- The mux closure registered for `/currencies.json` (lines 34–38):
sets the Content-Type header, writes status 200, then calls
`getCurrencies` — whose returned error the closure discards. -/
def currenciesJsonHandler (env : ServerEnv) (mem : MemStorage) (w : ResponseState) :
    ResponseState × HandlerOutcome :=
  let w := { w with contentType := some "application/json" }
  let w := { w with status := some 200 }
  getCurrencies env mem w

/-! ## Concrete cycle inputs used by the counterexample theorems -/

/-- A pre-cycle cache state holding generation-1 data. -/
def preDatetime : UpdateDatetime := ⟨1, "2024-01-01T12:00:00+03:00"⟩

def preCurrencies : CurrencyStorage :=
  ⟨[⟨"036", "AUD", 1, "Australian Dollar", "59.4102"⟩]⟩

def preMem : MemStorage := ⟨some preDatetime, some preCurrencies⟩

/-- The generation-2 data a successful cycle would produce. -/
def newDatetime : UpdateDatetime := ⟨2, "2024-01-02T12:00:00+03:00"⟩

def newCurrencies : CurrencyStorage :=
  ⟨[⟨"036", "AUD", 1, "Australian Dollar", "60.0001"⟩]⟩

/-- A fetch environment whose file read fails (the file-source flag is
set and the local file is missing). -/
def fetchFailEnv : FetchEnv :=
  { isReadCurrencyDataFromFile := true
    fileData := Except.error "open currencies.xml: no such file or directory"
    webData := Except.ok (some [])
    parse := fun _ => Except.ok newCurrencies }

/-- A fetch environment that succeeds from the local file. -/
def fetchOkEnv : FetchEnv :=
  { isReadCurrencyDataFromFile := true
    fileData := Except.ok (some [60, 63])
    webData := Except.error "unused"
    parse := fun _ => Except.ok newCurrencies }

/-- A stale cycle whose fetch fails while both durable inserts and the
rest of the collaborators behave normally. -/
def cycleEnvFetchFail : CycleEnv :=
  { connectErr := none
    disconnectErr := none
    latestDatetimeFromDb := some preDatetime
    latestDatetimeErr := none
    isNeedUpdate := true
    isNeedUpdateErr := none
    fetch := fetchFailEnv
    insertedDatetime := some newDatetime
    insertDatetimeErr := none
    insertCurrenciesErr := some "null value in column currency_id"
    latestCurrenciesFromDb := none
    latestCurrenciesErr := none }

/-- A stale cycle whose fetch succeeds but whose `InsertUpdateDatetime`
fails, returning no row. -/
def cycleEnvInsertFail : CycleEnv :=
  { connectErr := none
    disconnectErr := none
    latestDatetimeFromDb := some preDatetime
    latestDatetimeErr := none
    isNeedUpdate := true
    isNeedUpdateErr := none
    fetch := fetchOkEnv
    insertedDatetime := none
    insertDatetimeErr := some "connection reset by peer"
    latestCurrenciesFromDb := none
    insertCurrenciesErr := none
    latestCurrenciesErr := none }

/-- C1: evaluation at the failing input. In a cycle whose Source Fetcher
fails, the Read Cache IS advanced anyway: the cycle installs the freshly
inserted timestamp together with a nil record set, so a `Get()` after
the cycle no longer returns the pre-cycle snapshot. -/
theorem fetch_failure_advances_cache :
    ((getParsedDataFromSource cycleEnvFetchFail.fetch).2).isOk = false ∧
    (updateCurrencyDataInStorages cycleEnvFetchFail preMem).memAfter =
      some ⟨some newDatetime, none⟩ ∧
    (updateCurrencyDataInStorages cycleEnvFetchFail preMem).memAfter ≠ some preMem :=
  ⟨rfl, rfl, by decide⟩

/-- C2: evaluation at the failing input. When `InsertUpdateDatetime`
fails (logging the error and returning no row), the cycle dereferences
the nil `latestUpdateDatetime` at `latestUpdateDatetime.Id` and panics,
terminating the process instead of proceeding to the next state. -/
theorem insert_failure_panics :
    cycleEnvInsertFail.insertDatetimeErr.isSome = true ∧
    (updateCurrencyDataInStorages cycleEnvInsertFail preMem).isPanic = true :=
  ⟨rfl, rfl⟩

/-- C5: evaluation at the failing input. In a stale cycle whose fetch
fails, both durable inserts are still issued: a new `UpdateTimestamp`
row is inserted and `InsertCurrencies` is called (with a nil record
set), so durable rows ARE written for a cycle whose fetch failed. -/
theorem fetch_failure_still_inserts :
    ((getParsedDataFromSource cycleEnvFetchFail.fetch).2).isOk = false ∧
    (updateCurrencyDataInStorages cycleEnvFetchFail preMem).durableCalls =
      ⟨true, true⟩ :=
  ⟨rfl, rfl⟩

/-- C3 counterexample: a reader running between the two setter calls of
the publish (lines 160–161) observes the new timestamp paired with the
old record set — a state that is neither the fully-previous nor the
fully-new snapshot, so the publish is not a single atomic swap. -/
theorem publish_mixed_state_counterexample :
    publishObservation preMem (some newDatetime) (some newCurrencies) 1 ≠ preMem ∧
    publishObservation preMem (some newDatetime) (some newCurrencies) 1 ≠
      ⟨some newDatetime, some newCurrencies⟩ := by
  decide

/-- C3 (amended): the publish is two separate atomic swaps — timestamp
first, then record set. A concurrent reader observes one of exactly
three states: the fully-old snapshot, the fully-new snapshot, or the
mixed state of new timestamp with old records; the opposite mix (old
timestamp with new records) is never observable. -/
theorem publish_two_swaps (old : MemStorage) (dt : Option UpdateDatetime)
    (cs : Option CurrencyStorage) (k : Nat) :
    publishObservation old dt cs k = old ∨
    publishObservation old dt cs k = ⟨dt, old.currencyStorage⟩ ∨
    publishObservation old dt cs k = ⟨dt, cs⟩ := by
  match k with
  | 0 => exact Or.inl rfl
  | 1 => exact Or.inr (Or.inl rfl)
  | n + 2 => exact Or.inr (Or.inr rfl)

/-- C8: each fetch invokes exactly one retrieval strategy, selected by
the configuration flag — the local-file reader exactly when the
file-source flag is set, the network client exactly otherwise, and
never both in one fetch. -/
theorem fetch_strategy_exclusive (env : FetchEnv) :
    (getParsedDataFromSource env).1.fileCalled = env.isReadCurrencyDataFromFile ∧
    (getParsedDataFromSource env).1.webCalled = (!env.isReadCurrencyDataFromFile) ∧
    ((getParsedDataFromSource env).1.fileCalled &&
      (getParsedDataFromSource env).1.webCalled) = false := by
  rcases env with ⟨flag, fileData, webData, parse⟩
  cases flag <;> cases fileData <;> cases webData <;>
    simp [getParsedDataFromSource]

/-- C10: the `/currencies.json` closure writes the Content-Type header
and status 200 before `getCurrencies` runs, so for every marshalling or
body-write outcome — failures included — the response carries status
200 and the JSON Content-Type; the handler's error never reaches the
status line. -/
theorem handler_always_writes_200 (env : ServerEnv) (mem : MemStorage) :
    ((currenciesJsonHandler env mem initialResponse).1).status = some 200 ∧
    ((currenciesJsonHandler env mem initialResponse).1).contentType =
      some "application/json" := by
  rcases mem with ⟨dt, cs⟩
  cases cs with
  | none => exact ⟨rfl, rfl⟩
  | some storage =>
    cases hm : env.marshal storage.currencies with
    | error e =>
      simp [currenciesJsonHandler, getCurrencies, getCurrencyStorage, hm]
    | ok processedData =>
      cases hw : env.writeErr <;>
        simp [currenciesJsonHandler, getCurrencies, getCurrencyStorage, hm, hw]

end CurrencyConverter
